import Mathlib

/-!
Verification development for the USGS instantaneous-values downloader
(`collect.py` and `fetch.py`).

The embedding below translates the core of `collect.py` into Lean:

* `flatten_ts` — the JSON flattener (per-station payload → observation rows);
* `fetch_with_site` — the retrying fetcher (3 attempts, sleep only on
  exceptions, non-200 falls through with no delay);
* `process_state` — the per-state pipeline with its resume check, its single
  direct parquet write, and the duplicated second body that follows it in the
  source.

Machine-level details that the Python runtime supplies are modelled
explicitly:

* `datetime.fromisoformat` is modelled by `fromisoformatUtcUs`, which parses
  an ISO-8601 string carrying an explicit UTC offset into microseconds on a
  proleptic-Gregorian timeline.  A string that `fromisoformat` rejects maps to
  `none`; a string that parses to an offset-naive datetime also maps to
  `none`, because the very next operation in the source
  (`START_DATE <= dt_obj <= FINAL_DATE`, with both bounds offset-aware)
  raises `TypeError` on a naive datetime, so in both cases `flatten_ts`
  terminates with an exception, which the embedding renders as
  `Except.error`.
* Network attempts are abstracted by an oracle `Nat → AttemptOutcome` giving
  the outcome of each attempt, and the filesystem by an association list from
  path to file size.
-/

/-! ## Calendar arithmetic backing the timestamp model -/

/-- Leap-year test of the proleptic Gregorian calendar. -/
def isLeap (y : Nat) : Bool :=
  (y % 4 == 0 && y % 100 != 0) || y % 400 == 0

/-- Days in month `m` of year `y` (months numbered 1–12). -/
def daysInMonth (y m : Nat) : Nat :=
  match m with
  | 1 => 31 | 3 => 31 | 5 => 31 | 7 => 31 | 8 => 31 | 10 => 31 | 12 => 31
  | 4 => 30 | 6 => 30 | 9 => 30 | 11 => 30
  | 2 => if isLeap y then 29 else 28
  | _ => 0

/-- Days before month `m` within year `y`. -/
def daysBeforeMonth (y m : Nat) : Nat :=
  (match m with
   | 1 => 0 | 2 => 31 | 3 => 59 | 4 => 90 | 5 => 120 | 6 => 151
   | 7 => 181 | 8 => 212 | 9 => 243 | 10 => 273 | 11 => 304 | 12 => 334
   | _ => 0)
  + (if 3 ≤ m ∧ isLeap y then 1 else 0)

/-- Ordinal day number of a proleptic-Gregorian date, with 0001-01-01 as
day 0 (valid for `y ≥ 1`). -/
def toOrdinal (y mo d : Nat) : Nat :=
  365 * (y - 1) + (y - 1) / 4 + (y - 1) / 400 - (y - 1) / 100
    + daysBeforeMonth y mo + (d - 1)

/-- Microseconds since 0001-01-01T00:00:00+00:00 of a civil timestamp with a
UTC offset given in minutes. -/
def civilUs (y mo d hh mi ss us : Nat) (offMin : Int) : Int :=
  (((toOrdinal y mo d * 1440 + hh * 60 + mi : Nat) : Int) - offMin) * 60000000
    + ((ss * 1000000 + us : Nat) : Int)

/-! ## Timestamp string parsing (model of `datetime.fromisoformat`) -/

/-- Value of a list of decimal digit characters. -/
def digitsToNat (l : List Char) : Nat :=
  l.foldl (fun a c => 10 * a + (c.toNat - 48)) 0

/-- Read exactly `n` decimal digits from the front of `l`. -/
def readDigits (n : Nat) (l : List Char) : Option (Nat × List Char) :=
  let pre := l.take n
  if pre.length = n ∧ pre.all Char.isDigit
  then some (digitsToNat pre, l.drop n) else none

/-- Read one expected character from the front of `l`. -/
def readChar (c : Char) : List Char → Option (List Char)
  | x :: xs => if x = c then some xs else none
  | [] => none

/-- Read a fractional-seconds field (1–6 digits after the decimal point) and
scale it to microseconds. -/
def readFracUs (l : List Char) : Option (Nat × List Char) :=
  let ds := l.takeWhile Char.isDigit
  if 1 ≤ ds.length ∧ ds.length ≤ 6
  then some (digitsToNat ds * 10 ^ (6 - ds.length), l.drop ds.length)
  else none

/-- Read the optional `:SS` or `:SS.ffffff` tail of a time, returning
(seconds, microseconds, rest). -/
def readSecFrac (l : List Char) : Option (Nat × Nat × List Char) :=
  match l with
  | ':' :: l1 =>
    match readDigits 2 l1 with
    | none => none
    | some (ss, l2) =>
      match l2 with
      | '.' :: l3 =>
        match readFracUs l3 with
        | none => none
        | some (us, l4) => some (ss, us, l4)
      | _ => some (ss, 0, l2)
  | _ => some (0, 0, l)

/-- Read a mandatory UTC offset `+HH:MM` or `-HH:MM`, in minutes. -/
def readOffsetMin (l : List Char) : Option (Int × List Char) :=
  match l with
  | c :: l1 =>
    if c = '+' ∨ c = '-' then
      match readDigits 2 l1 with
      | none => none
      | some (oh, l2) =>
        match readChar ':' l2 with
        | none => none
        | some l3 =>
          match readDigits 2 l3 with
          | none => none
          | some (om, l4) =>
            if oh ≤ 23 ∧ om ≤ 59 then
              some ((if c = '-' then -((oh * 60 + om : Nat) : Int)
                     else ((oh * 60 + om : Nat) : Int)), l4)
            else none
    else none
  | [] => none

/-- Model of `datetime.fromisoformat` restricted to strings that produce an
offset-aware datetime, returning the instant as microseconds on the
`civilUs` timeline.  Strings that `fromisoformat` rejects, and strings that
parse to an offset-naive datetime (which the source would immediately crash
on when comparing against the offset-aware window bounds), both return
`none`. -/
def fromisoformatUtcUs (s : String) : Option Int :=
  match readDigits 4 s.toList with
  | none => none
  | some (y, l1) =>
  match readChar '-' l1 with
  | none => none
  | some l2 =>
  match readDigits 2 l2 with
  | none => none
  | some (mo, l3) =>
  match readChar '-' l3 with
  | none => none
  | some l4 =>
  match readDigits 2 l4 with
  | none => none
  | some (d, l5) =>
  match l5 with
  | [] => none
  | _sep :: l6 =>
  match readDigits 2 l6 with
  | none => none
  | some (hh, l7) =>
  match readChar ':' l7 with
  | none => none
  | some l8 =>
  match readDigits 2 l8 with
  | none => none
  | some (mi, l9) =>
  match readSecFrac l9 with
  | none => none
  | some (ss, us, l10) =>
  match readOffsetMin l10 with
  | none => none
  | some (off, l11) =>
    if l11 = [] ∧ 1 ≤ y ∧ 1 ≤ mo ∧ mo ≤ 12 ∧ 1 ≤ d ∧ d ≤ daysInMonth y mo
        ∧ hh ≤ 23 ∧ mi ≤ 59 ∧ ss ≤ 59 then
      some (civilUs y mo d hh mi ss us off)
    else none

/-! ## String helpers used by `flatten_ts` -/

/-- Model of `dt.replace("Z", "+00:00")`: every occurrence of the single
character `Z` is replaced by `+00:00`. -/
def pyReplaceZ (s : String) : String :=
  String.mk (s.toList.flatMap
    (fun c => if c = 'Z' then ['+', '0', '0', ':', '0', '0'] else [c]))

/-- Model of `dt.split("T")[0]`: for a single-character separator this is
exactly the text before the first `T` (the whole string when no `T`
occurs). -/
def pyDatePart (s : String) : String :=
  String.mk (s.toList.takeWhile (fun c => c != 'T'))

/-- The remainder of the string after `pyDatePart`. -/
def pyDateRest (s : String) : String :=
  String.mk (s.toList.dropWhile (fun c => c != 'T'))

/-! ## Window constants

`START_DATE = datetime(2022, 11, 7, tzinfo=timezone.utc)` and
`FINAL_DATE = datetime(2025, 11, 7, tzinfo=timezone.utc)` from the source,
as instants on the `civilUs` timeline. -/

def START_DATE : Int := civilUs 2022 11 7 0 0 0 0 0

def FINAL_DATE : Int := civilUs 2025 11 7 0 0 0 0 0

/-! ## Data model of the nested JSON payload and the flat rows -/

/-- One `(timestamp, value)` pair of a time series: `v.get("dateTime")` and
`v.get("value")`.  `none` models a JSON `null` or an absent key. -/
structure DataPoint where
  dateTime : Option String
  value : Option String
deriving Repr, DecidableEq

/-- One entry of the `timeSeries` list.  The three descriptor fields model
the source's extraction
`var.get("variableCode", [ ])[0].get("value")`, `var.get("variableName")`
and `var.get("unit", d).get("unitCode")`, each of which yields either a
string or Python `None`; `values` models
`ts.get("values", d)[0].get("value", [ ])`, the list of pairs. -/
structure TimeSeriesEntry where
  param_code : Option String
  param_name : Option String
  unit : Option String
  values : List DataPoint
deriving Repr, DecidableEq

/-- One flattened observation row, mirroring the dict appended by
`flatten_ts` (fields in source order). -/
structure Row where
  site_no : String
  state : String
  datetime : String
  date : String
  param_code : Option String
  param_name : Option String
  unit : Option String
  value : String
deriving Repr, DecidableEq

deriving instance DecidableEq for Except

/-! ## `flatten_ts` -/

/-- The inner `for v in values` loop of `flatten_ts`, for one time-series
entry with descriptors `pc`, `pn`, `u`.  A pair whose timestamp is absent or
empty is skipped (`if not dt: continue`); a pair whose nonempty timestamp
does not parse raises `ValueError` in the source, modelled as
`Except.error dt`; otherwise the pair is kept exactly when its instant lies
in the closed window, with the sentinel / empty / null value normalized to
the empty string. -/
def flattenEntryVals (site st : String) (pc pn u : Option String) :
    List DataPoint → Except String (List Row)
  | [] => .ok []
  | v :: vs =>
    match v.dateTime with
    | none => flattenEntryVals site st pc pn u vs
    | some dt =>
      if dt = "" then flattenEntryVals site st pc pn u vs
      else
        match fromisoformatUtcUs (pyReplaceZ dt) with
        | none => .error dt
        | some t =>
          if START_DATE ≤ t ∧ t ≤ FINAL_DATE then
            let val_clean : String :=
              match v.value with
              | none => ""
              | some s => if s = "" ∨ s = "-999999.00" then "" else s
            match flattenEntryVals site st pc pn u vs with
            | .error e => .error e
            | .ok rest =>
              .ok (⟨site, st, dt, pyDatePart dt, pc, pn, u, val_clean⟩ :: rest)
          else flattenEntryVals site st pc pn u vs

/-- Model of `flatten_ts(site_no, ts_list, state)`: the outer loop over the
time-series entries, concatenating the rows of each entry in order.  A
`ValueError` raised while processing any pair aborts the whole call
(`Except.error`). -/
def flatten_ts (site_no : String) (ts_list : List TimeSeriesEntry)
    (state : String) : Except String (List Row) :=
  match ts_list with
  | [] => .ok []
  | e :: es =>
    match flattenEntryVals site_no state e.param_code e.param_name e.unit
        e.values with
    | .error err => .error err
    | .ok rs =>
      match flatten_ts site_no es state with
      | .error err => .error err
      | .ok rest => .ok (rs ++ rest)

/-! ## The fetcher `fetch_with_site` -/

/-- The `"value"` object of the response JSON, with its optional
`"timeSeries"` list (`none` models an absent key). -/
structure IvValue where
  timeSeries : Option (List TimeSeriesEntry)
deriving Repr, DecidableEq

/-- The response JSON of a status-200 fetch, with its optional `"value"`
object. -/
structure IvResponse where
  value : Option IvValue
deriving Repr, DecidableEq

/-- Model of `js.get("value", d).get("timeSeries", [ ])`: the nested
time-series list, defaulting to the empty list when either key is absent. -/
def extract_ts (js : IvResponse) : List TimeSeriesEntry :=
  match js.value with
  | none => []
  | some v => v.timeSeries.getD []

/-- Outcome of one network attempt of `fetch_with_site`:

* `success js` — the response had status 200 and its body parsed as the JSON
  object `js` (the source then returns immediately);
* `httpError s` — the response had non-200 status `s`: the `if` falls
  through, no exception is raised, and the loop moves to the next attempt
  with no sleep;
* `exn` — the attempt raised (transport error, timeout, or malformed JSON
  body): the `except` branch sleeps `0.5 * (attempt + 1)` and the loop moves
  to the next attempt. -/
inductive AttemptOutcome where
  | success (js : IvResponse)
  | httpError (status : Nat)
  | exn
deriving Repr, DecidableEq

/-- Observable result of `fetch_with_site`: the echoed site number, the
returned payload (`none` models Python `None` after all attempts fail), the
sleeps performed in order (in milliseconds: the source sleeps
`0.5 * (attempt + 1)` seconds, i.e. `500 * (attempt + 1)` ms), and the
number of attempts issued. -/
structure FetchOut where
  site : String
  result : Option (List TimeSeriesEntry)
  sleeps : List Nat
  attempts : Nat
deriving Repr, DecidableEq

/-- The `for attempt in range(3)` loop of `fetch_with_site`, driven by an
oracle giving each attempt's outcome.  `fuel` is the number of loop
iterations left; `attempt` is the current 0-based index. -/
def fetchLoop (oc : Nat → AttemptOutcome) :
    Nat → Nat → Option (List TimeSeriesEntry) × List Nat × Nat
  | 0, _ => (none, [], 0)
  | fuel + 1, attempt =>
    match oc attempt with
    | .success js => (some (extract_ts js), [], 1)
    | .httpError _ =>
      let (r, ds, n) := fetchLoop oc fuel (attempt + 1)
      (r, ds, n + 1)
    | .exn =>
      let (r, ds, n) := fetchLoop oc fuel (attempt + 1)
      (r, 500 * (attempt + 1) :: ds, n + 1)

/-- Model of `fetch_with_site(session, site_no, start, end)`.  The network is
abstracted by the per-attempt outcome oracle `oc`.  The function never
raises: every exception is swallowed by the bare `except`, and exhausting
the three attempts returns `(site_no, None)`. -/
def fetch_with_site (oc : Nat → AttemptOutcome) (site_no : String) :
    FetchOut :=
  let out := fetchLoop oc 3 0
  ⟨site_no, out.1, out.2.1, out.2.2⟩

/-! ## The per-state pipeline `process_state` -/

/-- One row of the site-index dataframe loaded from
`usgs_all_sites.parquet` (only the columns `process_state` reads). -/
structure SiteRow where
  site_no : String
  source_state : String
  site_tp_cd : String
deriving Repr, DecidableEq

/-- Environment of one `process_state` run: the per-site, per-attempt
network outcomes, and the size in bytes of the parquet file that
`to_parquet` produces for a given row list. -/
structure Env where
  oc : String → Nat → AttemptOutcome
  sizeOf : List Row → Nat

/-- The filesystem, as an association list from path to file size; a path
not present does not exist.  `fsSet` prepends, so the most recent write
shadows older entries under `List.lookup`. -/
abbrev Fs := List (String × Nat)

/-- Size of the file at `p`, or `none` when no file exists there. -/
def fsGet (fs : Fs) (p : String) : Option Nat := fs.lookup p

/-- Write (or overwrite) the file at `p` with size `n`. -/
def fsSet (fs : Fs) (p : String) (n : Nat) : Fs := (p, n) :: fs

/-- Model of `os.path.exists(p) and os.path.getsize(p) > 1000`, the resume
check of `process_state`. -/
def bigEnough : Option Nat → Bool
  | some n => decide (1000 < n)
  | none => false

/-- Externally observable actions of a `process_state` run, in order. -/
inductive Event where
  | fetchIssued (site : String)
  | wrote (path : String) (size : Nat)
deriving Repr, DecidableEq

/-- Model of
`os.path.join(OUTPUT_DIR, f"states_iv_...parquet")`
for OUTPUT_DIR `state_parquet_3yrs`. -/
def out_path (state : String) : String :=
  "state_parquet_3yrs/states_iv_" ++ state ++ "_3yrs.parquet"

/-- Model of the site selection
`df[(df["source_state"] == state) & (df["site_tp_cd"] == "ST")]`
followed by `df_state["site_no"].tolist()`. -/
def select_sites (df : List SiteRow) (state : String) : List String :=
  (df.filter (fun r => r.source_state == state && r.site_tp_cd == "ST")).map
    (fun r => r.site_no)

/-- The payload `fetch_with_site` hands back for one site under `env`. -/
def siteResult (env : Env) (site : String) :
    Option (List TimeSeriesEntry) :=
  (fetch_with_site (env.oc site) site).result

/-- The rows one site contributes inside the completion loop: `flatten_ts`
runs only when `ts_list` is truthy, i.e. neither Python `None` nor the empty
list (`if ts_list:`); otherwise the site contributes no rows. -/
def siteRows (env : Env) (state site : String) : Except String (List Row) :=
  match siteResult env site with
  | some (t :: ts) => flatten_ts site (t :: ts) state
  | _ => .ok []

/-- The `rows` accumulation of the completion loop over all sites of the
state.  Completion order is modelled as submission order (the source
processes completions in nondeterministic order, and row order carries no
semantics downstream); an exception raised by `flatten_ts` propagates out of
the loop. -/
def collectRows (env : Env) (state : String) :
    List String → Except String (List Row)
  | [] => .ok []
  | s :: ss =>
    match siteRows env state s with
    | .error e => .error e
    | .ok r =>
      match collectRows env state ss with
      | .error e => .error e
      | .ok rest => .ok (r ++ rest)

/-- The exception raised when the duplicated second body of `process_state`
reaches its `async for` statement: `tqdm_asyncio.as_completed` is an
ordinary synchronous generator function (its body is `yield from ...`), and
a plain generator object has no `__aiter__`, so `async for` raises
`TypeError` before the generator body runs — hence before
`asyncio.as_completed` is called and before any second-pass fetch task is
scheduled.  (The first body carries the comment
`# FIX: iterate sync, await inside` marking exactly this repair.) -/
def asyncForTypeError : String :=
  "TypeError: async for requires an object with an aiter method"

/-- Model of `process_state(state, df)`.  Returns the filesystem after the
call, the ordered trace of network and write actions, and how the call
ended: `Except.ok skipped` for a normal return (`skipped` records whether
the first resume check returned early), `Except.error` for an uncaught
exception.  The source function:

1. returns early when the output file exists with size over 1000 bytes;
2. otherwise fetches every selected site, flattens truthy payloads, and
   writes the row set with a single direct `to_parquet(out_path)` — no
   temporary file and no rename;
3. then re-runs the resume check on the file just written (the body is
   duplicated in the source): when that file exceeds 1000 bytes it returns,
   and otherwise the duplicated body raises `TypeError` at its `async for`
   before issuing any further fetch or write. -/
def process_state (env : Env) (state : String) (df : List SiteRow)
    (fs : Fs) : Fs × List Event × Except String Bool :=
  let path := out_path state
  if bigEnough (fsGet fs path) then (fs, [], .ok true)
  else
    let sites := select_sites df state
    let evFetch := sites.map Event.fetchIssued
    match collectRows env state sites with
    | .error e => (fs, evFetch, .error e)
    | .ok rows =>
      let sz := env.sizeOf rows
      let fs1 := fsSet fs path sz
      let ev1 := evFetch ++ [Event.wrote path sz]
      if bigEnough (fsGet fs1 path) then (fs1, ev1, .ok false)
      else (fs1, ev1, .error asyncForTypeError)

/-! ## Helper lemmas -/

/-- Appending `String.mk` values concatenates the underlying character
lists. -/
theorem string_mk_append (a b : List Char) :
    String.mk a ++ String.mk b = String.mk (a ++ b) := rfl

/-- The date part and the rest reassemble the original string, so the date
part is a prefix of it. -/
theorem pyDatePart_append_pyDateRest (s : String) :
    pyDatePart s ++ pyDateRest s = s := by
  rw [pyDatePart, pyDateRest, string_mk_append, List.takeWhile_append_dropWhile]
  rfl

/-- Every row produced by the inner pair loop records, as its `date` field,
the truncation of its own `datetime` field at the first `T`. -/
theorem flattenEntryVals_date_eq (site st : String) (pc pn u : Option String) :
    ∀ vs rows, flattenEntryVals site st pc pn u vs = Except.ok rows →
      ∀ r ∈ rows, r.date = pyDatePart r.datetime := by
  intro vs
  induction vs with
  | nil =>
    intro rows h r hr
    simp only [flattenEntryVals, Except.ok.injEq] at h
    subst h
    simp at hr
  | cons v vs ih =>
    intro rows h r hr
    simp only [flattenEntryVals] at h
    split at h
    · exact ih rows h r hr
    · split at h
      · exact ih rows h r hr
      · split at h
        · exact absurd h (by simp)
        · split at h
          · split at h
            · exact absurd h (by simp)
            · rename_i rest hrest
              rw [Except.ok.injEq] at h
              subst h
              rcases List.mem_cons.mp hr with hre | hrm
              · subst hre; rfl
              · exact ih rest hrest r hrm
          · exact ih rows h r hr

/-- Every row produced by `flatten_ts` records, as its `date` field, the
truncation of its own `datetime` field at the first `T`. -/
theorem flatten_ts_date_eq (site st : String) :
    ∀ ts_list rows, flatten_ts site ts_list st = Except.ok rows →
      ∀ r ∈ rows, r.date = pyDatePart r.datetime := by
  intro ts_list
  induction ts_list with
  | nil =>
    intro rows h r hr
    simp only [flatten_ts, Except.ok.injEq] at h
    subst h
    simp at hr
  | cons e es ih =>
    intro rows h r hr
    simp only [flatten_ts] at h
    split at h
    · exact absurd h (by simp)
    · rename_i rs hrs
      split at h
      · exact absurd h (by simp)
      · rename_i rest hrest
        rw [Except.ok.injEq] at h
        subst h
        rcases List.mem_append.mp hr with hm | hm
        · exact flattenEntryVals_date_eq site st e.param_code e.param_name
            e.unit e.values rs hrs r hm
        · exact ih rest hrest r hm

/-! ## Claim theorems -/

/-- C4: for an observation pair whose timestamp parses (to the instant `t`),
`flatten_ts` emits the pair's row exactly when `t` lies in the closed window
`[START_DATE, FINAL_DATE]`; timestamps strictly outside the window produce
no row, and both bounds are inclusive.  The pair is placed in a one-entry
payload; `flattenEntryVals` processes the pairs of a payload independently,
so this characterizes each pair's contribution. -/
theorem flatten_window_closed_interval (site st dt : String)
    (pc pn u val : Option String) (t : Int)
    (hdt : dt ≠ "") (hp : fromisoformatUtcUs (pyReplaceZ dt) = some t) :
    flatten_ts site [⟨pc, pn, u, [⟨some dt, val⟩]⟩] st =
      Except.ok
        (if START_DATE ≤ t ∧ t ≤ FINAL_DATE then
          [⟨site, st, dt, pyDatePart dt, pc, pn, u,
            match val with
            | none => ""
            | some s => if s = "" ∨ s = "-999999.00" then "" else s⟩]
        else []) := by
  by_cases hw : START_DATE ≤ t ∧ t ≤ FINAL_DATE
  · simp only [flatten_ts, flattenEntryVals, if_neg hdt, hp, if_pos hw]
    rfl
  · simp only [flatten_ts, flattenEntryVals, if_neg hdt, hp, if_neg hw]
    rfl

/-- Witness for C4 at the lower window boundary: the reading stamped exactly
`2022-11-07T00:00:00Z` (equal to `START_DATE`) produces its row. -/
theorem flatten_window_closed_interval_witness :
    flatten_ts "01646500"
      [⟨some "00010", some "Temperature", some "deg C",
        [⟨some "2022-11-07T00:00:00Z", some "7.2"⟩]⟩] "MD" =
      Except.ok [⟨"01646500", "MD", "2022-11-07T00:00:00Z", "2022-11-07",
        some "00010", some "Temperature", some "deg C", "7.2"⟩] := by
  have h := flatten_window_closed_interval "01646500" "MD"
    "2022-11-07T00:00:00Z" (some "00010") (some "Temperature") (some "deg C")
    (some "7.2") START_DATE (by decide) (by decide)
  rw [h]
  decide

/-- C5: for an emitted row, raw values that are null/absent, empty, or the
sentinel `-999999.00` become the empty string, and every other raw value —
including negative or zero readings — is passed through unchanged. -/
theorem flatten_value_normalization (site st dt : String)
    (pc pn u val : Option String) (t : Int)
    (hdt : dt ≠ "") (hp : fromisoformatUtcUs (pyReplaceZ dt) = some t)
    (hw : START_DATE ≤ t ∧ t ≤ FINAL_DATE) :
    (val = none ∨ val = some "" ∨ val = some "-999999.00" →
      flatten_ts site [⟨pc, pn, u, [⟨some dt, val⟩]⟩] st =
        Except.ok [⟨site, st, dt, pyDatePart dt, pc, pn, u, ""⟩]) ∧
    (∀ s, val = some s → s ≠ "" → s ≠ "-999999.00" →
      flatten_ts site [⟨pc, pn, u, [⟨some dt, val⟩]⟩] st =
        Except.ok [⟨site, st, dt, pyDatePart dt, pc, pn, u, s⟩]) := by
  constructor
  · intro h
    simp only [flatten_ts, flattenEntryVals, if_neg hdt, hp, if_pos hw]
    rcases h with h | h | h <;> subst h <;> rfl
  · intro s hs hne hsent
    subst hs
    simp only [flatten_ts, flattenEntryVals, if_neg hdt, hp, if_pos hw]
    have : ¬(s = "" ∨ s = "-999999.00") := by
      rintro (h | h) <;> [exact hne h; exact hsent h]
    simp only [if_neg this]
    rfl

/-- Witness for C5: the sentinel value `-999999.00` becomes the empty
string, while the negative reading `-3.5` passes through unchanged. -/
theorem flatten_value_normalization_witness :
    flatten_ts "01094000"
      [⟨some "00300", some "Dissolved oxygen", some "mg/l",
        [⟨some "2024-01-02T08:15:00-05:00", some "-999999.00"⟩]⟩] "NH" =
      Except.ok [⟨"01094000", "NH", "2024-01-02T08:15:00-05:00", "2024-01-02",
        some "00300", some "Dissolved oxygen", some "mg/l", ""⟩] ∧
    flatten_ts "01094000"
      [⟨some "00010", some "Temperature", some "deg C",
        [⟨some "2024-01-02T08:15:00-05:00", some "-3.5"⟩]⟩] "NH" =
      Except.ok [⟨"01094000", "NH", "2024-01-02T08:15:00-05:00", "2024-01-02",
        some "00010", some "Temperature", some "deg C", "-3.5"⟩] := by
  constructor
  · have h := (flatten_value_normalization "01094000" "NH"
      "2024-01-02T08:15:00-05:00" (some "00300") (some "Dissolved oxygen")
      (some "mg/l") (some "-999999.00")
      (civilUs 2024 1 2 8 15 0 0 (-300)) (by decide) (by decide)
      (by constructor <;> decide)).1 (Or.inr (Or.inr rfl))
    rw [h]
    decide
  · have h := (flatten_value_normalization "01094000" "NH"
      "2024-01-02T08:15:00-05:00" (some "00010") (some "Temperature")
      (some "deg C") (some "-3.5")
      (civilUs 2024 1 2 8 15 0 0 (-300)) (by decide) (by decide)
      (by constructor <;> decide)).2 "-3.5" rfl (by decide) (by decide)
    rw [h]
    decide

/-- C6: when the partition output file already exists with size over the
1000-byte threshold, `process_state` returns as skipped with an empty
action trace — in particular no fetch is issued and the filesystem is
untouched. -/
theorem process_state_resume_skip (env : Env) (state : String)
    (df : List SiteRow) (fs : Fs) (n : Nat)
    (h1 : fsGet fs (out_path state) = some n) (h2 : 1000 < n) :
    process_state env state df fs = (fs, [], Except.ok true) := by
  simp only [process_state, h1, bigEnough, decide_eq_true_eq, if_pos h2]

/-- Witness for C6: a 4096-byte file at the Massachusetts output path makes
the run a pure skip. -/
theorem process_state_resume_skip_witness :
    process_state ⟨fun _ _ => .exn, fun _ => 0⟩ "MA"
      [⟨"01096500", "MA", "ST"⟩] [(out_path "MA", 4096)] =
      ([(out_path "MA", 4096)], [], Except.ok true) :=
  process_state_resume_skip ⟨fun _ _ => .exn, fun _ => 0⟩ "MA"
    [⟨"01096500", "MA", "ST"⟩] [(out_path "MA", 4096)] 4096
    (by decide) (by decide)

/-- C9: every row emitted by `flatten_ts` derives its `date` field by
truncating the raw timestamp string at the first `T` (the model of
`dt.split("T")[0]`), not by independent date parsing; consequently the
`date` field is always a prefix of the `datetime` field, witnessed by the
concatenation identity. -/
theorem flatten_date_consistent_with_datetime (site st : String)
    (ts_list : List TimeSeriesEntry) (rows : List Row) (r : Row)
    (h : flatten_ts site ts_list st = Except.ok rows) (hr : r ∈ rows) :
    r.date = pyDatePart r.datetime ∧
    r.date ++ pyDateRest r.datetime = r.datetime := by
  have hd := flatten_ts_date_eq site st ts_list rows h r hr
  exact ⟨hd, by rw [hd, pyDatePart_append_pyDateRest]⟩

/-- Witness for C9 on a concrete payload: the emitted row's date is the
text before the `T` of its timestamp and a prefix of it. -/
theorem flatten_date_consistent_with_datetime_witness :
    ("2023-03-01" : String) = pyDatePart "2023-03-01T00:30:00-05:00" ∧
    ("2023-03-01" : String) ++ pyDateRest "2023-03-01T00:30:00-05:00" =
      "2023-03-01T00:30:00-05:00" := by
  have h := flatten_date_consistent_with_datetime "01104500" "VT"
    [⟨some "00400", some "pH", some "std units",
      [⟨some "2023-03-01T00:30:00-05:00", some "7.0"⟩]⟩]
    [⟨"01104500", "VT", "2023-03-01T00:30:00-05:00", "2023-03-01",
      some "00400", some "pH", some "std units", "7.0"⟩]
    ⟨"01104500", "VT", "2023-03-01T00:30:00-05:00", "2023-03-01",
      some "00400", some "pH", some "std units", "7.0"⟩
    (by decide) (by decide)
  exact h

/-- When no attempt succeeds, the three-attempt loop returns Python `None`
as payload. -/
theorem fetchLoop_all_fail (oc : Nat → AttemptOutcome)
    (h : ∀ i, i < 3 → ∀ js, oc i ≠ .success js) :
    (fetchLoop oc 3 0).1 = none := by
  cases h0 : oc 0 with
  | success js => exact absurd h0 (h 0 (by decide) js)
  | httpError s0 =>
    cases h1 : oc 1 with
    | success js => exact absurd h1 (h 1 (by decide) js)
    | httpError s1 =>
      cases h2 : oc 2 with
      | success js => exact absurd h2 (h 2 (by decide) js)
      | httpError s2 => simp [fetchLoop, h0, h1, h2]
      | exn => simp [fetchLoop, h0, h1, h2]
    | exn =>
      cases h2 : oc 2 with
      | success js => exact absurd h2 (h 2 (by decide) js)
      | httpError s2 => simp [fetchLoop, h0, h1, h2]
      | exn => simp [fetchLoop, h0, h1, h2]
  | exn =>
    cases h1 : oc 1 with
    | success js => exact absurd h1 (h 1 (by decide) js)
    | httpError s1 =>
      cases h2 : oc 2 with
      | success js => exact absurd h2 (h 2 (by decide) js)
      | httpError s2 => simp [fetchLoop, h0, h1, h2]
      | exn => simp [fetchLoop, h0, h1, h2]
    | exn =>
      cases h2 : oc 2 with
      | success js => exact absurd h2 (h 2 (by decide) js)
      | httpError s2 => simp [fetchLoop, h0, h1, h2]
      | exn => simp [fetchLoop, h0, h1, h2]

/-- C7: when every one of a site's 3 attempts fails (in any mix of failure
kinds), `fetch_with_site` returns the explicit absence value `None` instead
of raising, the site contributes zero rows, and the row collection over the
partition proceeds exactly as if the site were not there — a single
station's total failure never aborts the partition. -/
theorem fetch_total_failure_zero_rows (env : Env) (st site : String)
    (ss : List String)
    (hfail : ∀ i, i < 3 → ∀ js, env.oc site i ≠ .success js) :
    (fetch_with_site (env.oc site) site).result = none ∧
    siteRows env st site = Except.ok [] ∧
    collectRows env st (site :: ss) = collectRows env st ss := by
  have hres : (fetch_with_site (env.oc site) site).result = none :=
    fetchLoop_all_fail (env.oc site) hfail
  have hsr : siteRows env st site = Except.ok [] := by
    rw [siteRows, siteResult, hres]
  refine ⟨hres, hsr, ?_⟩
  rw [collectRows, hsr]
  cases h : collectRows env st ss <;> simp

/-- Witness for C7: a site timing out on all 3 attempts yields `None`, zero
rows, and an unchanged partition row set. -/
theorem fetch_total_failure_zero_rows_witness :
    (fetch_with_site ((Env.mk (fun _ _ => .exn) (fun _ => 0)).oc "01205500")
        "01205500").result = none ∧
    siteRows ⟨fun _ _ => .exn, fun _ => 0⟩ "CT" "01205500" = Except.ok [] ∧
    collectRows ⟨fun _ _ => .exn, fun _ => 0⟩ "CT" ["01205500"] =
      collectRows ⟨fun _ _ => .exn, fun _ => 0⟩ "CT" [] :=
  fetch_total_failure_zero_rows ⟨fun _ _ => .exn, fun _ => 0⟩ "CT" "01205500"
    [] (fun _ _ _ h => nomatch h)

/-- C10: a fetch that gets a status-200 response whose JSON body lacks the
nested `value.timeSeries` path, or carries it as `None` or as an empty
list, returns the empty payload `some []` — not the absence value `none` —
and the pipeline treats that empty payload exactly like absence: the `if
ts_list:` guard is falsy for both, `flatten_ts` is not invoked, and the
site contributes zero rows. -/
theorem fetch_empty_payload_zero_rows (env : Env) (st site : String)
    (js : IvResponse) (k : Nat)
    (hjs : js.value = none ∨
      ∃ v, js.value = some v ∧ (v.timeSeries = none ∨ v.timeSeries = some []))
    (hk : k < 3)
    (hbefore : ∀ j, j < k → ∀ js2, env.oc site j ≠ .success js2)
    (hsucc : env.oc site k = .success js) :
    (fetch_with_site (env.oc site) site).result = some [] ∧
    siteRows env st site = Except.ok [] := by
  have hext : extract_ts js = [] := by
    rcases hjs with h | ⟨v, hv, hts | hts⟩
    · simp [extract_ts, h]
    · simp [extract_ts, hv, hts]
    · simp [extract_ts, hv, hts]
  have hres : (fetch_with_site (env.oc site) site).result = some [] := by
    match k, hk with
    | 0, _ =>
      simp [fetch_with_site, fetchLoop, hsucc, hext]
    | 1, _ =>
      cases h0 : env.oc site 0 with
      | success js0 => exact absurd h0 (hbefore 0 (by decide) js0)
      | httpError s0 => simp [fetch_with_site, fetchLoop, h0, hsucc, hext]
      | exn => simp [fetch_with_site, fetchLoop, h0, hsucc, hext]
    | 2, _ =>
      cases h0 : env.oc site 0 with
      | success js0 => exact absurd h0 (hbefore 0 (by decide) js0)
      | httpError s0 =>
        cases h1 : env.oc site 1 with
        | success js1 => exact absurd h1 (hbefore 1 (by decide) js1)
        | httpError s1 => simp [fetch_with_site, fetchLoop, h0, h1, hsucc, hext]
        | exn => simp [fetch_with_site, fetchLoop, h0, h1, hsucc, hext]
      | exn =>
        cases h1 : env.oc site 1 with
        | success js1 => exact absurd h1 (hbefore 1 (by decide) js1)
        | httpError s1 => simp [fetch_with_site, fetchLoop, h0, h1, hsucc, hext]
        | exn => simp [fetch_with_site, fetchLoop, h0, h1, hsucc, hext]
  refine ⟨hres, ?_⟩
  rw [siteRows, siteResult, hres]

/-- Witness for C10: a 200 response whose body carries an empty
`timeSeries` list yields the empty payload and zero rows. -/
theorem fetch_empty_payload_zero_rows_witness :
    (fetch_with_site
        ((Env.mk (fun _ _ => .success ⟨some ⟨some []⟩⟩) (fun _ => 0)).oc
          "01463500") "01463500").result = some [] ∧
    siteRows ⟨fun _ _ => .success ⟨some ⟨some []⟩⟩, fun _ => 0⟩ "NJ"
      "01463500" = Except.ok [] :=
  fetch_empty_payload_zero_rows
    ⟨fun _ _ => .success ⟨some ⟨some []⟩⟩, fun _ => 0⟩ "NJ" "01463500"
    ⟨some ⟨some []⟩⟩ 0
    (Or.inr ⟨⟨some []⟩, rfl, Or.inr rfl⟩)
    (by decide)
    (fun j hj js2 h => absurd hj (Nat.not_lt_zero j))
    rfl

/-- Counterexample to C1: a pair whose nonempty timestamp string `garbage`
cannot be parsed makes `flatten_ts` terminate with an exception (the
uncaught `ValueError` of `datetime.fromisoformat`), instead of silently
dropping the pair and returning the row of the station's other, valid
pair.  The claimed behavior would be `Except.ok` carrying the first pair's
row. -/
theorem flatten_unparseable_timestamp_raises_cex :
    flatten_ts "01646500"
      [⟨some "00010", some "Temperature", some "deg C",
        [⟨some "2023-06-15T10:30:00.000-05:00", some "7.2"⟩,
         ⟨some "garbage", some "8.1"⟩]⟩] "MD" = Except.error "garbage" := by
  decide

/-- C1 as amended: only an absent or empty timestamp is a silent per-pair
drop (the pair is skipped and the remaining pairs are processed normally);
a nonempty timestamp that fails to parse raises an uncaught error that
aborts the station's flatten — and with it the partition run — rather than
being dropped. -/
theorem flatten_timestamp_drop_amended (site st : String)
    (pc pn u : Option String) (v : DataPoint) (vs : List DataPoint)
    (es : List TimeSeriesEntry) :
    ((v.dateTime = none ∨ v.dateTime = some "") →
      flatten_ts site (⟨pc, pn, u, v :: vs⟩ :: es) st =
        flatten_ts site (⟨pc, pn, u, vs⟩ :: es) st) ∧
    (∀ dt, v.dateTime = some dt → dt ≠ "" →
      fromisoformatUtcUs (pyReplaceZ dt) = none →
      flatten_ts site (⟨pc, pn, u, v :: vs⟩ :: es) st = Except.error dt) := by
  constructor
  · rintro (h | h) <;> simp [flatten_ts, flattenEntryVals, h]
  · intro dt hdt hne hparse
    simp only [flatten_ts, flattenEntryVals, hdt, if_neg hne, hparse]

/-- Witness for the amended C1: an absent timestamp is skipped with the
rest of the payload intact, while the unparseable timestamp `bogus`
raises. -/
theorem flatten_timestamp_drop_amended_witness :
    flatten_ts "01350000"
      [⟨some "00095", some "Specific conductance", some "uS/cm",
        [⟨none, some "412"⟩]⟩] "NY" =
      flatten_ts "01350000"
        [⟨some "00095", some "Specific conductance", some "uS/cm", []⟩]
        "NY" ∧
    flatten_ts "01350000"
      [⟨some "00095", some "Specific conductance", some "uS/cm",
        [⟨some "bogus", some "412"⟩]⟩] "NY" = Except.error "bogus" := by
  constructor
  · exact (flatten_timestamp_drop_amended "01350000" "NY" (some "00095")
      (some "Specific conductance") (some "uS/cm") ⟨none, some "412"⟩ []
      []).1 (Or.inl rfl)
  · exact (flatten_timestamp_drop_amended "01350000" "NY" (some "00095")
      (some "Specific conductance") (some "uS/cm") ⟨some "bogus", some "412"⟩
      [] []).2 "bogus" rfl (by decide) (by decide)

/-- Counterexample to C3: with every attempt answered by HTTP status 503 —
a failure of the non-success-status kind — the fetcher runs all 3 attempts
and returns absence while performing zero sleeps, although the claim
demands a wait of `base_delay × attempt_number` after every failed
attempt. -/
theorem retry_no_delay_on_http_status_cex :
    (fetch_with_site (fun _ => .httpError 503) "01100000").attempts = 3 ∧
    (fetch_with_site (fun _ => .httpError 503) "01100000").result = none ∧
    (fetch_with_site (fun _ => .httpError 503) "01100000").sleeps = [] := by
  decide

/-- C3 as amended: the fetcher makes at most 3 attempts, and it sleeps
`0.5 × (attempt number)` seconds (here in milliseconds) exactly after the
attempts that raise an exception — transport error, timeout, or malformed
payload — including after a final failed attempt; an attempt that merely
returns a non-success HTTP status is retried immediately with no delay. -/
theorem retry_backoff_amended (oc : Nat → AttemptOutcome) (site : String) :
    (fetch_with_site oc site).attempts ≤ 3 ∧
    (fetch_with_site oc site).sleeps =
      (List.range (fetch_with_site oc site).attempts).filterMap
        (fun i =>
          match oc i with
          | .exn => some (500 * (i + 1))
          | _ => none) := by
  cases h0 : oc 0 with
  | success js0 => simp [fetch_with_site, fetchLoop, h0, List.range_succ]
  | httpError s0 =>
    cases h1 : oc 1 with
    | success js1 => simp [fetch_with_site, fetchLoop, h0, h1, List.range_succ]
    | httpError s1 =>
      cases h2 : oc 2 with
      | success js2 =>
        simp [fetch_with_site, fetchLoop, h0, h1, h2, List.range_succ]
      | httpError s2 =>
        simp [fetch_with_site, fetchLoop, h0, h1, h2, List.range_succ]
      | exn => simp [fetch_with_site, fetchLoop, h0, h1, h2, List.range_succ]
    | exn =>
      cases h2 : oc 2 with
      | success js2 =>
        simp [fetch_with_site, fetchLoop, h0, h1, h2, List.range_succ]
      | httpError s2 =>
        simp [fetch_with_site, fetchLoop, h0, h1, h2, List.range_succ]
      | exn => simp [fetch_with_site, fetchLoop, h0, h1, h2, List.range_succ]
  | exn =>
    cases h1 : oc 1 with
    | success js1 => simp [fetch_with_site, fetchLoop, h0, h1, List.range_succ]
    | httpError s1 =>
      cases h2 : oc 2 with
      | success js2 =>
        simp [fetch_with_site, fetchLoop, h0, h1, h2, List.range_succ]
      | httpError s2 =>
        simp [fetch_with_site, fetchLoop, h0, h1, h2, List.range_succ]
      | exn => simp [fetch_with_site, fetchLoop, h0, h1, h2, List.range_succ]
    | exn =>
      cases h2 : oc 2 with
      | success js2 =>
        simp [fetch_with_site, fetchLoop, h0, h1, h2, List.range_succ]
      | httpError s2 =>
        simp [fetch_with_site, fetchLoop, h0, h1, h2, List.range_succ]
      | exn => simp [fetch_with_site, fetchLoop, h0, h1, h2, List.range_succ]

/-- Counterexample to C2: in a run that fetches one site and commits, the
only write in the whole trace serializes the rows directly at
`out_path "MA"` — the very path the resume check inspects.  Nothing is ever
written to a temporary location and no rename occurs, so the final file is
not "created only after the full row set has been serialized" elsewhere:
it is the file being serialized into. -/
theorem commit_direct_write_cex :
    process_state
      ⟨fun _ _ => .success ⟨some ⟨some [⟨some "00010", some "Temperature",
          some "deg C", [⟨some "2023-06-15T10:30:00Z", some "7.2"⟩]⟩]⟩⟩,
       fun rows => 4000 * rows.length⟩
      "MA" [⟨"01096500", "MA", "ST"⟩] [] =
      ([(out_path "MA", 4000)],
       [Event.fetchIssued "01096500", Event.wrote (out_path "MA") 4000],
       Except.ok false) := by
  decide

/-- C2 as amended: the commit is a single direct `to_parquet` write to the
final output path.  Every write event of any `process_state` run — however
it ends — targets `out_path state` itself; no temporary location and no
rename exist, so the path the resume check inspects is written in place and
only the 1000-byte size threshold guards against a partial file being taken
for a complete one. -/
theorem commit_writes_only_final_path (env : Env) (state : String)
    (df : List SiteRow) (fs fs2 : Fs) (tr : List Event)
    (res : Except String Bool)
    (h : process_state env state df fs = (fs2, tr, res)) :
    tr.all (fun e =>
      match e with
      | .wrote p _ => p == out_path state
      | .fetchIssued _ => true) = true := by
  simp only [process_state] at h
  split at h
  · rw [Prod.mk.injEq, Prod.mk.injEq] at h
    obtain ⟨h1, h2, h3⟩ := h
    subst h2
    rfl
  · split at h
    · rw [Prod.mk.injEq, Prod.mk.injEq] at h
      obtain ⟨h1, h2, h3⟩ := h
      subst h2
      simp [List.all_eq_true]
    · split at h <;>
      · rw [Prod.mk.injEq, Prod.mk.injEq] at h
        obtain ⟨h1, h2, h3⟩ := h
        subst h2
        simp only [List.all_append, List.all_eq_true, Bool.and_eq_true]
        constructor
        · intro e he
          rcases List.mem_map.mp he with ⟨s, hs, rfl⟩
          rfl
        · intro e he
          rcases List.mem_singleton.mp he with rfl
          simp

/-- Witness for the amended C2: the trace of a concrete committing run,
checked against the all-writes-target-the-final-path predicate. -/
theorem commit_writes_only_final_path_witness :
    ([Event.fetchIssued "01205500", Event.wrote (out_path "CT") 2500].all
      (fun e =>
        match e with
        | .wrote p _ => p == out_path "CT"
        | .fetchIssued _ => true)) = true :=
  commit_writes_only_final_path
    ⟨fun _ _ => .success ⟨some ⟨some [⟨some "00010", some "Temperature",
        some "deg C", [⟨some "2023-06-15T10:30:00Z", some "4.0"⟩]⟩]⟩⟩,
     fun _ => 2500⟩
    "CT" [⟨"01205500", "CT", "ST"⟩] [] [(out_path "CT", 2500)]
    [Event.fetchIssued "01205500", Event.wrote (out_path "CT") 2500]
    (Except.ok false) (by decide)

/-- Counterexample to C8: with a first write of only 600 bytes (below the
threshold), `process_state` does not fetch the partition's station a second
time and does not write again — the trace holds exactly one fetch and one
write — and instead of returning it raises the `TypeError` of the
duplicated body's `async for` over a synchronous generator. -/
theorem duplicated_body_typeerror_cex :
    process_state
      ⟨fun _ _ => .success ⟨some ⟨some [⟨some "00010", some "Temperature",
          some "deg C", [⟨some "2023-06-15T10:30:00Z", some "7.2"⟩]⟩]⟩⟩,
       fun _ => 600⟩
      "RI" [⟨"01100000", "RI", "ST"⟩] [] =
      ([(out_path "RI", 600)],
       [Event.fetchIssued "01100000", Event.wrote (out_path "RI") 600],
       Except.error asyncForTypeError) := by
  decide

/-- C8 as amended: after the first write `process_state` does re-run the
resume check on the file it just wrote.  When that file exceeds the
1000-byte threshold the call returns normally after a single pass; when it
does not, the duplicated second body is entered but raises `TypeError` at
its `async for` statement — before issuing any second fetch or second
write — so the trace of either outcome holds exactly one round of fetches
and one write. -/
theorem duplicated_body_amended (env : Env) (state : String)
    (df : List SiteRow) (fs : Fs) (rows : List Row)
    (h0 : bigEnough (fsGet fs (out_path state)) = false)
    (hc : collectRows env state (select_sites df state) = Except.ok rows) :
    (env.sizeOf rows ≤ 1000 →
      process_state env state df fs =
        (fsSet fs (out_path state) (env.sizeOf rows),
         (select_sites df state).map Event.fetchIssued
           ++ [Event.wrote (out_path state) (env.sizeOf rows)],
         Except.error asyncForTypeError)) ∧
    (1000 < env.sizeOf rows →
      process_state env state df fs =
        (fsSet fs (out_path state) (env.sizeOf rows),
         (select_sites df state).map Event.fetchIssued
           ++ [Event.wrote (out_path state) (env.sizeOf rows)],
         Except.ok false)) := by
  have hcond : ¬ (bigEnough (fsGet fs (out_path state)) = true) := by
    simp [h0]
  have hget : bigEnough (fsGet (fsSet fs (out_path state) (env.sizeOf rows))
      (out_path state)) = decide (1000 < env.sizeOf rows) := by
    simp [fsGet, fsSet, bigEnough, List.lookup]
  constructor
  · intro hle
    simp only [process_state, if_neg hcond, hc, hget]
    rw [if_neg (by simpa using Nat.not_lt.mpr hle)]
  · intro hlt
    simp only [process_state, if_neg hcond, hc, hget]
    rw [if_pos (by simpa using hlt)]

/-- Witness for the amended C8: the same one-station partition ends in the
`TypeError` when the written file is 600 bytes and returns normally after
one pass when it is 4000 bytes. -/
theorem duplicated_body_amended_witness :
    process_state
      ⟨fun _ _ => .success ⟨some ⟨some [⟨some "00400", some "pH",
          some "std units", [⟨some "2024-05-05T12:00:00Z", some "6.9"⟩]⟩]⟩⟩,
       fun _ => 600⟩
      "VT" [⟨"04288000", "VT", "ST"⟩] [] =
      ([(out_path "VT", 600)],
       [Event.fetchIssued "04288000", Event.wrote (out_path "VT") 600],
       Except.error asyncForTypeError) ∧
    process_state
      ⟨fun _ _ => .success ⟨some ⟨some [⟨some "00400", some "pH",
          some "std units", [⟨some "2024-05-05T12:00:00Z", some "6.9"⟩]⟩]⟩⟩,
       fun _ => 4000⟩
      "VT" [⟨"04288000", "VT", "ST"⟩] [] =
      ([(out_path "VT", 4000)],
       [Event.fetchIssued "04288000", Event.wrote (out_path "VT") 4000],
       Except.ok false) := by
  constructor
  · have h := (duplicated_body_amended
      ⟨fun _ _ => .success ⟨some ⟨some [⟨some "00400", some "pH",
          some "std units", [⟨some "2024-05-05T12:00:00Z", some "6.9"⟩]⟩]⟩⟩,
       fun _ => 600⟩
      "VT" [⟨"04288000", "VT", "ST"⟩] []
      [⟨"04288000", "VT", "2024-05-05T12:00:00Z", "2024-05-05",
        some "00400", some "pH", some "std units", "6.9"⟩]
      (by decide) (by decide)).1 (by decide)
    rw [h]
    decide
  · have h := (duplicated_body_amended
      ⟨fun _ _ => .success ⟨some ⟨some [⟨some "00400", some "pH",
          some "std units", [⟨some "2024-05-05T12:00:00Z", some "6.9"⟩]⟩]⟩⟩,
       fun _ => 4000⟩
      "VT" [⟨"04288000", "VT", "ST"⟩] []
      [⟨"04288000", "VT", "2024-05-05T12:00:00Z", "2024-05-05",
        some "00400", some "pH", some "std units", "6.9"⟩]
      (by decide) (by decide)).2 (by decide)
    rw [h]
    decide
